import Mathlib

/-!
Verification of the esp32-c3 nets transport library.

The C++ sources are embedded shallowly:
* `Packet` (include/net/packet.h) becomes a Lean structure; the 517-byte
  buffer is a `List Nat` of length 517 and `memcpy` is `copyBytes`.
* `Transport` (src/transport.cpp) becomes a pure state machine
  `TransportState` with explicit state passing; the worker thread's tick
  `processSendQueue` takes the timer samples (`esp_timer_get_time` results)
  as explicit arguments and the channel adapter's `sendImpl` as a function
  from invocation index and packet to an `esp_err_t` outcome.
* `Uart::sendImpl` / `UsbJtag::sendImpl` (src/uart.cpp, src/usb_jtag.cpp)
  share one body, embedded as `serialSendImpl` over the byte count the
  underlying driver reports as written.
* The bounded send queue comes from the external `esp32_c3_objects`
  library (not part of this repository's sources); it is modelled from the
  spec as a FIFO list with capacity 16 where a zero-timeout push fails
  exactly when the queue is full.
-/

namespace Nets

/-- ESP-IDF error codes used by the sources (esp_err.h values). -/
def ESP_OK : Int := 0

/-- Code ESP_FAIL. -/
def ESP_FAIL : Int := -1

/-- Code ESP_ERR_NO_MEM. -/
def ESP_ERR_NO_MEM : Int := 0x101

/-- Code ESP_ERR_INVALID_ARG. -/
def ESP_ERR_INVALID_ARG : Int := 0x102

/-- Code ESP_ERR_INVALID_STATE. -/
def ESP_ERR_INVALID_STATE : Int := 0x103

/-- Code ESP_ERR_TIMEOUT. -/
def ESP_ERR_TIMEOUT : Int := 0x107

/-- Constant `MAX_MTU` from packet.h: maximum MTU for BLE 5.0. -/
def MAX_MTU : Nat := 517

/-- Structure `Packet` from include/net/packet.h: id, size and a 517-byte buffer.
Bytes are modelled as `Nat` values; the buffer list has length `MAX_MTU`. -/
structure Packet where
  id : Nat := 0
  size : Nat := 0
  buffer : List Nat := List.replicate MAX_MTU 0
deriving Repr, DecidableEq

/-- Method `Packet::isValid`: `size > 0 && size <= MAX_MTU`. -/
def Packet.isValid (p : Packet) : Bool :=
  p.size > 0 && p.size ≤ MAX_MTU

/-- Method `Packet::clear`: zero all fields. -/
def Packet.clear (_ : Packet) : Packet :=
  { id := 0, size := 0, buffer := List.replicate MAX_MTU 0 }

/-- Effect of `memcpy(dst.data(), src, len)` on the fixed-size buffer: positions
below `len` take the source byte, the rest keep the old byte. -/
def copyBytes (dst : List Nat) (src : List Nat) (len : Nat) : List Nat :=
  (List.range dst.length).map fun i => if i < len then src.getD i 0 else dst.getD i 0

/-- Method `Packet::setPayload(data, len)`: `data` is an optional byte list
(`none` embeds a null pointer). Fails, leaving the packet unchanged, when
the pointer is null, `len = 0` or `len > MAX_MTU`; otherwise sets
`size := len` and copies the first `len` source bytes into the buffer. -/
def Packet.setPayload (p : Packet) (data : Option (List Nat)) (len : Nat) :
    Bool × Packet :=
  match data with
  | none => (false, p)
  | some d =>
    if len = 0 ∨ len > MAX_MTU then (false, p)
    else (true, { p with size := len, buffer := copyBytes p.buffer d len })

/-- Constant `Transport::SEND_INTERVAL_US = 20 * 1000` (20 ms in microseconds). -/
def SEND_INTERVAL_US : Nat := 20 * 1000

/-- Constant `Transport::MAX_QUEUE_SIZE = 16`. -/
def MAX_QUEUE_SIZE : Nat := 16

/-- State of `net::Transport` (include/net/transport.h data members plus the
worker-thread run state and observation logs).
`mSendQueue` models the external `esp32_c3_objects::BufferedQueue`
(modelled from the spec: FIFO, capacity `MAX_QUEUE_SIZE`, value copies).
`errorBound` models whether `mErrorCallback` is non-null; `errorLog`
records every error-callback invocation and `sendImplLog` every
`sendImpl` invocation, in order. -/
structure TransportState where
  mIsInitialized : Bool
  threadRunning : Bool
  errorBound : Bool
  mSendQueue : List Packet
  mNextSendTime : Nat
  errorLog : List (Packet × Int)
  sendImplLog : List Packet
deriving Repr, DecidableEq

/-- Method `Transport::isInitialized`: the init flag is set and the worker thread
is not in state `NOT_RUNNING`. -/
def TransportState.isInitialized (s : TransportState) : Bool :=
  s.mIsInitialized && s.threadRunning

/-- Method `Transport::isTemporary`: `ESP_ERR_NO_MEM`, `ESP_ERR_INVALID_STATE`
and `ESP_ERR_TIMEOUT` are temporary; everything else is fatal. -/
def isTemporary (ret : Int) : Bool :=
  ret = ESP_ERR_NO_MEM || ret = ESP_ERR_INVALID_STATE || ret = ESP_ERR_TIMEOUT

/-- Operation `BufferedQueue::send(packet, 0)`. Modelled from the spec: the external
queue class is not in this repository's sources; per spec §4.2 a
zero-timeout push appends at the tail and fails exactly when the queue
already holds `MAX_QUEUE_SIZE` entries. Returns success plus the new
queue. -/
def queuePush (q : List Packet) (p : Packet) : Bool × List Packet :=
  if q.length ≥ MAX_QUEUE_SIZE then (false, q) else (true, q ++ [p])

/-- Method `Transport::send`: rejects with `ESP_ERR_INVALID_ARG` when the engine
is not initialized/running or the packet is invalid, otherwise pushes with
zero timeout and maps a full queue to `ESP_ERR_INVALID_STATE`. -/
def TransportState.send (s : TransportState) (p : Packet) :
    Int × TransportState :=
  if !s.isInitialized || !p.isValid then (ESP_ERR_INVALID_ARG, s)
  else
    let (ok, q) := queuePush s.mSendQueue p
    if ok then (ESP_OK, { s with mSendQueue := q }) else (ESP_ERR_INVALID_STATE, s)

/-- Method `Transport::start`: `mThread.quickStart(loop)` leaves the worker
running (true when started or already running). -/
def TransportState.start (s : TransportState) : TransportState :=
  { s with threadRunning := true }

/-- Method `Transport::stop`: `mSendQueue.reset()` drains the queue, then
`mThread.stop()` halts the worker. -/
def TransportState.stop (s : TransportState) : TransportState :=
  { s with mSendQueue := [], threadRunning := false }

/-- Method `Transport::clearQueue`: pop with zero timeout until empty, returning
the number of packets removed. -/
def TransportState.clearQueue (s : TransportState) : Nat × TransportState :=
  (s.mSendQueue.length, { s with mSendQueue := [] })

/-- Method `Transport::getQueueSize`: `mSendQueue.waiting()`. -/
def TransportState.getQueueSize (s : TransportState) : Nat :=
  s.mSendQueue.length

/-- Method `Transport::handleSendError`: first invokes the bound error callback
(if any) with the packet and the outcome, then re-enqueues the packet when
the outcome is temporary and drops it otherwise. -/
def handleSendError (p : Packet) (err : Int) (s : TransportState) :
    TransportState :=
  let s1 := if s.errorBound then { s with errorLog := s.errorLog ++ [(p, err)] } else s
  if isTemporary err then { s1 with mSendQueue := s1.mSendQueue ++ [p] } else s1

/-- Method `Transport::processSendQueue`: one send phase of a dispatch tick.
`now` is the `esp_timer_get_time()` sample at the rate-limit check and
`now2` the sample taken after a successful `sendImpl`; `adapter` gives the
`sendImpl` outcome for the n-th invocation (n = prior invocation count).
Skips when `mNextSendTime > now`; otherwise pops one packet, attempts the
send, advances `mNextSendTime` to `now2 + SEND_INTERVAL_US` on success and
delegates failures to `handleSendError`. -/
def processSendQueue (now now2 : Nat) (adapter : Nat → Packet → Int)
    (s : TransportState) : TransportState :=
  if s.mNextSendTime > now then s
  else
    match s.mSendQueue with
    | [] => s
    | p :: rest =>
      let ret := adapter s.sendImplLog.length p
      let s1 := { s with mSendQueue := rest, sendImplLog := s.sendImplLog ++ [p] }
      if ret = ESP_OK then { s1 with mNextSendTime := now2 + SEND_INTERVAL_US }
      else handleSendError p ret s1

/-- A run of consecutive dispatch-tick send phases at the given timer
samples. -/
def runTicks (ticks : List (Nat × Nat)) (adapter : Nat → Packet → Int)
    (s : TransportState) : TransportState :=
  ticks.foldl (fun st t => processSendQueue t.1 t.2 adapter st) s

/-- Runs `n` consecutive `Transport::send` calls of the same packet, collecting
the returned error codes. -/
def sendResults : Nat → Packet → TransportState → List Int × TransportState
  | 0, _, s => ([], s)
  | n + 1, p, s =>
    let (r, s1) := s.send p
    let (rs, s2) := sendResults n p s1
    (r :: rs, s2)

/-- Methods `Uart::sendImpl` and `UsbJtag::sendImpl` (identical bodies): write the
packet's `size` bytes through the driver; `written` is the byte count the
`write` wrapper reports. Returns `ESP_FAIL` unless all `size` bytes were
written, else `ESP_OK`. -/
def serialSendImpl (written : Nat) (p : Packet) : Int :=
  if written ≠ p.size then ESP_FAIL else ESP_OK

/-- Method `Uart::processReceivedData`: requires a bound data callback and
`available() ≠ 0`; builds a zero-initialised `Packet{}`, sets `size` to
the byte count `read` returned (the driver fills `buffer` with `data`),
and delivers the packet to the callback only when `size > 0`.
`some p` is the packet handed to the callback, `none` means no delivery. -/
def uartProcessReceivedData (callbackBound : Bool) (avail : Nat)
    (readLen : Nat) (data : List Nat) : Option Packet :=
  if !callbackBound || avail = 0 then none
  else
    let packet : Packet :=
      { id := 0, size := readLen,
        buffer := copyBytes (List.replicate MAX_MTU 0) data readLen }
    if packet.size > 0 then some packet else none

/-- Method `UsbJtag::processReceivedData`: same as the UART path but without the
`available()` pre-check. -/
def usbJtagProcessReceivedData (callbackBound : Bool) (readLen : Nat)
    (data : List Nat) : Option Packet :=
  if !callbackBound then none
  else
    let packet : Packet :=
      { id := 0, size := readLen,
        buffer := copyBytes (List.replicate MAX_MTU 0) data readLen }
    if packet.size > 0 then some packet else none

/-- A concrete valid packet (size 3, zero buffer) used for witnesses. -/
def samplePacket : Packet := { id := 1, size := 3 }

/-- A concrete engine state: initialized, worker running, error callback
bound, given send queue, timer at zero, empty logs. -/
def dispatchState (q : List Packet) : TransportState :=
  { mIsInitialized := true, threadRunning := true, errorBound := true,
    mSendQueue := q, mNextSendTime := 0, errorLog := [], sendImplLog := [] }

/-- Mock adapter: transient failure (`ESP_ERR_TIMEOUT`) on the first
`sendImpl` invocation, success afterwards. -/
def adapterTransientOnce : Nat → Packet → Int :=
  fun n _ => if n = 0 then ESP_ERR_TIMEOUT else ESP_OK

/-- Mock adapter that always succeeds. -/
def adapterAlwaysOk : Nat → Packet → Int := fun _ _ => ESP_OK

/-- Mock adapter that always fails fatally (`ESP_FAIL`). -/
def adapterAlwaysFail : Nat → Packet → Int := fun _ _ => ESP_FAIL

/-- The packet the serial receive path builds for a 3-byte read of
`[1, 2, 3]`. -/
def rxPacket : Packet :=
  { id := 0, size := 3, buffer := copyBytes (List.replicate MAX_MTU 0) [1, 2, 3] 3 }

/-! ### Helper lemmas (shared) -/

/-- A tick's send phase does nothing when the send queue is empty. -/
theorem processSendQueue_empty_queue (now now2 : Nat)
    (a : Nat → Packet → Int) (s : TransportState) (h : s.mSendQueue = []) :
    processSendQueue now now2 a s = s := by
  unfold processSendQueue
  rw [h]
  split <;> rfl

/-- A whole run of ticks does nothing from an empty send queue. -/
theorem runTicks_empty_queue (ts : List (Nat × Nat))
    (a : Nat → Packet → Int) (s : TransportState) (h : s.mSendQueue = []) :
    runTicks ts a s = s := by
  induction ts with
  | nil => rfl
  | cons t ts ih =>
    show runTicks ts a (processSendQueue t.1 t.2 a s) = s
    rw [processSendQueue_empty_queue t.1 t.2 a s h]
    exact ih

/-! ### Claim theorems -/

/-- Claim C6: `Packet::isValid` returns true exactly when `0 < size ≤ 517`;
the embedding is a pure function of the packet, so it cannot modify it. -/
theorem isValid_iff_size_bounds (p : Packet) :
    p.isValid = true ↔ 0 < p.size ∧ p.size ≤ 517 := by
  simp [Packet.isValid, MAX_MTU]

/-- Claim C8: `stop` drains the send queue and halts the worker, a second
`stop` is a no-op, `clearQueue` after `stop` removes 0 packets, and no
dispatch tick after `stop` does anything. -/
theorem stop_idempotent_and_drains (s : TransportState) :
    s.stop.stop = s.stop ∧
    s.stop.clearQueue.1 = 0 ∧
    s.stop.mSendQueue = [] ∧
    s.stop.threadRunning = false ∧
    ∀ ts a, runTicks ts a s.stop = s.stop :=
  ⟨rfl, rfl, rfl, rfl, fun ts a => runTicks_empty_queue ts a s.stop rfl⟩

/-- Claim C7: `setPayload` fails and leaves the packet fully unchanged when the
data pointer is null, `len = 0` or `len > 517`; otherwise it succeeds,
sets `size := len`, keeps `id` and the bytes at and beyond `len`, and
copies the first `len` source bytes into the buffer. -/
theorem setPayload_spec (p : Packet) (data : Option (List Nat)) (len : Nat)
    (hbuf : p.buffer.length = 517) :
    (data = none ∨ len = 0 ∨ len > 517 → p.setPayload data len = (false, p)) ∧
    (∀ d, data = some d → 0 < len → len ≤ 517 →
      (p.setPayload data len).1 = true ∧
      (p.setPayload data len).2.id = p.id ∧
      (p.setPayload data len).2.size = len ∧
      (∀ i, i < len → (p.setPayload data len).2.buffer.getD i 0 = d.getD i 0) ∧
      (∀ i, len ≤ i → i < 517 →
        (p.setPayload data len).2.buffer.getD i 0 = p.buffer.getD i 0)) := by
  constructor
  · rintro (h | h | h)
    · simp [Packet.setPayload, h]
    · cases data with
      | none => simp [Packet.setPayload]
      | some d => simp [Packet.setPayload, h]
    · cases data with
      | none => simp [Packet.setPayload]
      | some d =>
        have : len = 0 ∨ len > MAX_MTU := Or.inr (by simpa [MAX_MTU] using h)
        simp [Packet.setPayload, if_pos this]
  · rintro d rfl hpos hle
    have hcond : ¬(len = 0 ∨ len > MAX_MTU) := by
      push_neg
      exact ⟨by omega, by simpa [MAX_MTU] using hle⟩
    refine ⟨by simp [Packet.setPayload, hcond], by simp [Packet.setPayload, hcond],
      by simp [Packet.setPayload, hcond], ?_, ?_⟩
    · intro i hi
      have hi517 : i < 517 := lt_of_lt_of_le hi hle
      simp [Packet.setPayload, hcond, copyBytes, hbuf,
        List.getD_eq_getElem?_getD, List.getElem?_map, List.getElem?_range, hi517, hi]
    · intro i hge hlt
      have : ¬ i < len := by omega
      simp [Packet.setPayload, hcond, copyBytes, hbuf,
        List.getD_eq_getElem?_getD, List.getElem?_map, List.getElem?_range, hlt, this]

/-- Witness for C7: a successful 3-byte payload write on `samplePacket`. -/
theorem setPayload_spec_witness :
    (samplePacket.setPayload (some [9, 8, 7]) 3).1 = true ∧
    (samplePacket.setPayload (some [9, 8, 7]) 3).2.size = 3 ∧
    (samplePacket.setPayload (some [9, 8, 7]) 3).2.buffer.getD 0 0 = 9 := by
  have h := (setPayload_spec samplePacket (some [9, 8, 7]) 3
      (by rw [show samplePacket.buffer = List.replicate MAX_MTU 0 from rfl,
        List.length_replicate]; rfl)).2
    [9, 8, 7] rfl (by decide) (by decide)
  exact ⟨h.1, h.2.2.1, by rw [h.2.2.2.1 0 (by decide)]; rfl⟩

/-- Claim C3: `send` returns `ESP_ERR_INVALID_ARG` exactly when the engine is
not initialized/running or the packet is invalid (so every call with the
worker not running fails that way, whatever the packet); otherwise a full
queue yields `ESP_ERR_INVALID_STATE` (the spec's QueueFull) with the
state unchanged, and a non-full queue yields `ESP_OK` with the packet
appended at the tail. -/
theorem send_spec (s : TransportState) (p : Packet) :
    ((s.send p).1 = ESP_ERR_INVALID_ARG ↔
      ¬(s.mIsInitialized = true ∧ s.threadRunning = true ∧ p.isValid = true)) ∧
    (s.threadRunning = false → s.send p = (ESP_ERR_INVALID_ARG, s)) ∧
    (s.mIsInitialized = true → s.threadRunning = true → p.isValid = true →
      (16 ≤ s.mSendQueue.length → s.send p = (ESP_ERR_INVALID_STATE, s)) ∧
      (s.mSendQueue.length < 16 →
        s.send p = (ESP_OK, { s with mSendQueue := s.mSendQueue ++ [p] }))) := by
  refine ⟨?_, ?_, ?_⟩
  · by_cases ha : s.mIsInitialized = true <;> by_cases hb : s.threadRunning = true <;>
      by_cases hv : p.isValid = true <;>
      simp [TransportState.send, TransportState.isInitialized, ha, hb, hv, queuePush,
        Bool.not_eq_true, ESP_ERR_INVALID_ARG, ESP_OK, ESP_ERR_INVALID_STATE] <;>
      split_ifs <;> simp_all
  · intro h
    simp [TransportState.send, TransportState.isInitialized, h]
  · intro h1 h2 h3
    constructor
    · intro hfull
      simp [TransportState.send, TransportState.isInitialized, h1, h2, h3,
        queuePush, MAX_QUEUE_SIZE, hfull]
    · intro hroom
      simp [TransportState.send, TransportState.isInitialized, h1, h2, h3,
        queuePush, MAX_QUEUE_SIZE, Nat.not_le.mpr hroom]

/-- Witness for C3: from a ready engine with an empty queue, sending the
sample packet succeeds and appends it. -/
theorem send_spec_witness :
    (dispatchState []).send samplePacket =
      (ESP_OK, { dispatchState [] with mSendQueue := [samplePacket] }) := by
  have h := ((send_spec (dispatchState []) samplePacket).2.2 rfl rfl (by decide)).2
    (by decide)
  simpa using h

/-- While there is room, consecutive sends of a valid packet on a ready
engine all return `ESP_OK` and append copies at the tail. -/
theorem sendResults_all_ok (n : Nat) (p : Packet) (hp : p.isValid = true)
    (s : TransportState) (ha : s.mIsInitialized = true)
    (hb : s.threadRunning = true) (hlen : s.mSendQueue.length + n ≤ 16) :
    sendResults n p s =
      (List.replicate n ESP_OK,
        { s with mSendQueue := s.mSendQueue ++ List.replicate n p }) := by
  induction n generalizing s with
  | zero => simp [sendResults]
  | succ n ih =>
    have hroom : s.mSendQueue.length < 16 := by omega
    have hsend : s.send p = (ESP_OK, { s with mSendQueue := s.mSendQueue ++ [p] }) := by
      simp [TransportState.send, TransportState.isInitialized, ha, hb, hp, queuePush,
        MAX_QUEUE_SIZE, Nat.not_le.mpr hroom]
    have hlen2 :
        ({ s with mSendQueue := s.mSendQueue ++ [p] } : TransportState).mSendQueue.length + n
          ≤ 16 := by
      simp
      omega
    simp only [sendResults]
    rw [hsend]
    rw [ih { s with mSendQueue := s.mSendQueue ++ [p] } ha hb hlen2]
    simp [List.replicate_succ, List.append_assoc]

/-- Splitting lemma: `n + 1` sends are `n` sends followed by one more on the resulting
state. -/
theorem sendResults_succ_back (n : Nat) (p : Packet) (s : TransportState) :
    sendResults (n + 1) p s =
      ((sendResults n p s).1 ++ [((sendResults n p s).2.send p).1],
        ((sendResults n p s).2.send p).2) := by
  induction n generalizing s with
  | zero =>
    rcases hsp : s.send p with ⟨r, s1⟩
    simp [sendResults, hsp]
  | succ n ih =>
    rcases hsp : s.send p with ⟨r, s1⟩
    have lhs : sendResults (n + 1 + 1) p s =
        (r :: (sendResults (n + 1) p s1).1, (sendResults (n + 1) p s1).2) := by
      simp only [sendResults, hsp]
    have rhs1 : sendResults (n + 1) p s =
        (r :: (sendResults n p s1).1, (sendResults n p s1).2) := by
      simp only [sendResults, hsp]
    rw [lhs, ih s1, rhs1]
    simp

/-- Claim C4: after `start()` on an initialized engine with an empty queue and
an untouched dispatch loop, 16 consecutive sends of a valid packet all
return `ESP_OK` and the 17th returns `ESP_ERR_INVALID_STATE` (queue
full — the default capacity is 16). -/
theorem sixteen_sends_then_full (s : TransportState) (p : Packet)
    (hinit : s.mIsInitialized = true) (hq : s.mSendQueue = [])
    (hp : p.isValid = true) :
    (sendResults 17 p s.start).1 =
      List.replicate 16 ESP_OK ++ [ESP_ERR_INVALID_STATE] := by
  have h16 := sendResults_all_ok 16 p hp s.start hinit rfl
    (by simp [TransportState.start, hq])
  have h17 : (17 : Nat) = 16 + 1 := rfl
  rw [h17, sendResults_succ_back 16 p s.start, h16]
  have hfull :
      (({ s.start with
          mSendQueue := s.start.mSendQueue ++ List.replicate 16 p } :
            TransportState).send p).1 = ESP_ERR_INVALID_STATE := by
    simp [TransportState.send, TransportState.isInitialized, TransportState.start,
      hinit, hp, queuePush, MAX_QUEUE_SIZE, hq]
  rw [hfull]

/-- Witness for C4 at the concrete ready state and sample packet. -/
theorem sixteen_sends_then_full_witness :
    (sendResults 17 samplePacket (dispatchState []).start).1 =
      List.replicate 16 ESP_OK ++ [ESP_ERR_INVALID_STATE] :=
  sixteen_sends_then_full (dispatchState []) samplePacket rfl rfl (by decide)

/-- One unfolding step of the send phase when the rate limit allows
sending and the queue head is `p`. -/
theorem processSendQueue_cons (now now2 : Nat) (a : Nat → Packet → Int)
    (s : TransportState) (p : Packet) (rest : List Packet)
    (hq : s.mSendQueue = p :: rest) (ht : ¬ s.mNextSendTime > now) :
    processSendQueue now now2 a s =
      if a s.sendImplLog.length p = ESP_OK then
        { s with mSendQueue := rest, sendImplLog := s.sendImplLog ++ [p],
                 mNextSendTime := now2 + SEND_INTERVAL_US }
      else
        handleSendError p (a s.sendImplLog.length p)
          { s with mSendQueue := rest, sendImplLog := s.sendImplLog ++ [p] } := by
  unfold processSendQueue
  rw [hq, if_neg ht]

/-- Claim C2: a fatal `sendImpl` outcome (not classified temporary) on the sole
queued packet yields exactly one `sendImpl` invocation, removes the packet
from the queue without re-enqueueing it, reports it exactly once to the
bound error handler with that outcome — and no later tick does anything
more. -/
theorem fatal_drops_and_reports_once (s : TransportState) (p : Packet)
    (a : Nat → Packet → Int) (now now2 : Nat) (err : Int)
    (hq : s.mSendQueue = [p]) (ht : s.mNextSendTime ≤ now)
    (hb : s.errorBound = true) (hret : a s.sendImplLog.length p = err)
    (hfatal : isTemporary err = false) (hne : err ≠ ESP_OK) :
    processSendQueue now now2 a s =
      { s with mSendQueue := [], sendImplLog := s.sendImplLog ++ [p],
               errorLog := s.errorLog ++ [(p, err)] } ∧
    ∀ ts, runTicks ts a (processSendQueue now now2 a s) =
      processSendQueue now now2 a s := by
  have ht2 : ¬ s.mNextSendTime > now := by omega
  have hstep := processSendQueue_cons now now2 a s p [] hq ht2
  rw [hret, if_neg hne] at hstep
  have hh : handleSendError p err
      { s with mSendQueue := [], sendImplLog := s.sendImplLog ++ [p] } =
      { s with mSendQueue := [], sendImplLog := s.sendImplLog ++ [p],
               errorLog := s.errorLog ++ [(p, err)] } := by
    simp [handleSendError, hb, hfatal]
  refine ⟨by rw [hstep, hh], fun ts => ?_⟩
  rw [hstep, hh]
  exact runTicks_empty_queue ts a _ rfl

/-- Witness for C2: the always-`ESP_FAIL` adapter on one queued sample
packet. -/
theorem fatal_drops_and_reports_once_witness :
    processSendQueue 0 0 adapterAlwaysFail (dispatchState [samplePacket]) =
      { dispatchState [samplePacket] with
          mSendQueue := [], sendImplLog := [samplePacket],
          errorLog := [(samplePacket, ESP_FAIL)] } := by
  have h := (fatal_drops_and_reports_once (dispatchState [samplePacket]) samplePacket
    adapterAlwaysFail 0 0 ESP_FAIL rfl (by decide) rfl rfl (by decide) (by decide)).1
  simpa using h

/-- Counterexample to C1 as stated: with the error handler bound, a
transient failure (`ESP_ERR_TIMEOUT`) once and then success for the same
packet gives the claimed two `sendImpl` invocations without dropping the
packet, but the bound error handler IS invoked (with the packet and the
transient outcome), contradicting the claim that it is not. -/
theorem transient_reports_counterexample :
    (runTicks [(0, 0), (0, 0)] adapterTransientOnce
        (dispatchState [samplePacket])).errorLog =
      [(samplePacket, ESP_ERR_TIMEOUT)] ∧
    (runTicks [(0, 0), (0, 0)] adapterTransientOnce
        (dispatchState [samplePacket])).errorLog ≠ [] ∧
    (runTicks [(0, 0), (0, 0)] adapterTransientOnce
        (dispatchState [samplePacket])).sendImplLog =
      [samplePacket, samplePacket] ∧
    (runTicks [(0, 0), (0, 0)] adapterTransientOnce
        (dispatchState [samplePacket])).mSendQueue = [] := by
  refine ⟨rfl, by decide, rfl, rfl⟩

/-- Amended C1: a transient `sendImpl` outcome re-enqueues the same packet
for retry, and the bound error handler is also invoked with the packet and
the outcome; with an adapter failing transiently once then succeeding for
the sole queued packet, exactly two `sendImpl` invocations occur, the
packet is never dropped before transmission (the retry succeeds and
nothing further happens), and the error handler fires exactly once. -/
theorem transient_requeues_and_reports (s : TransportState) (p : Packet)
    (a : Nat → Packet → Int) (t1 t1' t2 t2' : Nat) (err : Int)
    (hq : s.mSendQueue = [p]) (hlog : s.sendImplLog = [])
    (helog : s.errorLog = []) (hb : s.errorBound = true)
    (ht1 : s.mNextSendTime ≤ t1) (ht2 : s.mNextSendTime ≤ t2)
    (h0 : a 0 p = err) (htmp : isTemporary err = true) (h1 : a 1 p = ESP_OK) :
    (runTicks [(t1, t1'), (t2, t2')] a s).sendImplLog = [p, p] ∧
    (runTicks [(t1, t1'), (t2, t2')] a s).mSendQueue = [] ∧
    (runTicks [(t1, t1'), (t2, t2')] a s).errorLog = [(p, err)] ∧
    ∀ ts, runTicks ts a (runTicks [(t1, t1'), (t2, t2')] a s) =
      runTicks [(t1, t1'), (t2, t2')] a s := by
  have hne : err ≠ ESP_OK := by
    simp [isTemporary] at htmp
    rcases htmp with (h | h) | h <;>
      simp [h, ESP_ERR_NO_MEM, ESP_ERR_INVALID_STATE, ESP_ERR_TIMEOUT, ESP_OK]
  have ht1b : ¬ s.mNextSendTime > t1 := by omega
  have hstep1 := processSendQueue_cons t1 t1' a s p [] hq ht1b
  simp only [hlog, List.length_nil] at hstep1
  rw [h0, if_neg hne] at hstep1
  have h1step : processSendQueue t1 t1' a s =
      { s with mSendQueue := [p], sendImplLog := [p], errorLog := [(p, err)] } := by
    rw [hstep1]
    simp [handleSendError, hb, htmp, hlog, helog]
  have hstep2 := processSendQueue_cons t2 t2' a
    { s with mSendQueue := [p], sendImplLog := [p], errorLog := [(p, err)] } p []
    rfl (by show ¬ s.mNextSendTime > t2; omega)
  rw [show ([p] : List Packet).length = 1 from rfl, h1, if_pos rfl] at hstep2
  have hfinal : runTicks [(t1, t1'), (t2, t2')] a s =
      { s with mSendQueue := [], sendImplLog := [p, p], errorLog := [(p, err)],
               mNextSendTime := t2' + SEND_INTERVAL_US } := by
    show processSendQueue t2 t2' a (processSendQueue t1 t1' a s) = _
    rw [h1step, hstep2]
    rfl
  refine ⟨by rw [hfinal], by rw [hfinal], by rw [hfinal], fun ts => ?_⟩
  rw [hfinal]
  exact runTicks_empty_queue ts a _ rfl

/-- Witness for the amended C1 at the concrete transient-once adapter. -/
theorem transient_requeues_and_reports_witness :
    (runTicks [(0, 0), (5, 5)] adapterTransientOnce
        (dispatchState [samplePacket])).sendImplLog =
      [samplePacket, samplePacket] ∧
    (runTicks [(0, 0), (5, 5)] adapterTransientOnce
        (dispatchState [samplePacket])).errorLog =
      [(samplePacket, ESP_ERR_TIMEOUT)] := by
  have h := transient_requeues_and_reports (dispatchState [samplePacket])
    samplePacket adapterTransientOnce 0 0 5 5 ESP_ERR_TIMEOUT rfl rfl rfl rfl
    (by decide) (by decide) rfl (by decide) rfl
  exact ⟨h.1, h.2.2.1⟩

/-- Claim C5: a tick whose time is before the next-permitted-send time skips
the send phase entirely; a successful `sendImpl` advances the
next-permitted-send time to `now + SEND_INTERVAL_US` (20 ms); hence after
a success at time `now2`, every tick earlier than `now2 + 20 ms` performs
no `sendImpl`, so a second invocation can only happen at least 20 ms
after the first success. -/
theorem rate_limit_twenty_ms (s : TransportState) (a : Nat → Packet → Int)
    (p : Packet) (rest : List Packet) (now now2 : Nat)
    (hq : s.mSendQueue = p :: rest) (htime : s.mNextSendTime ≤ now)
    (hok : a s.sendImplLog.length p = ESP_OK) :
    (∀ t t' (s2 : TransportState), t < s2.mNextSendTime →
      processSendQueue t t' a s2 = s2) ∧
    (processSendQueue now now2 a s).mNextSendTime = now2 + SEND_INTERVAL_US ∧
    (processSendQueue now now2 a s).sendImplLog = s.sendImplLog ++ [p] ∧
    (∀ t t', t < now2 + SEND_INTERVAL_US →
      processSendQueue t t' a (processSendQueue now now2 a s) =
        processSendQueue now now2 a s) := by
  have hskip : ∀ t t' (s2 : TransportState), t < s2.mNextSendTime →
      processSendQueue t t' a s2 = s2 := by
    intro t t' s2 hlt
    unfold processSendQueue
    rw [if_pos (by omega)]
  have hstep := processSendQueue_cons now now2 a s p rest hq (by omega)
  rw [hok, if_pos rfl] at hstep
  refine ⟨hskip, by rw [hstep], by rw [hstep], ?_⟩
  intro t t' hlt
  have h2 : t < (processSendQueue now now2 a s).mNextSendTime := by
    rw [hstep]
    exact hlt
  exact hskip t t' _ h2

/-- Witness for C5: with two sample packets queued and the always-ok
adapter, a first success at `now2 = 3` makes the tick at time 7 a no-op
and sets the next-permitted-send time to `3 + 20000`. -/
theorem rate_limit_twenty_ms_witness :
    processSendQueue 7 9 adapterAlwaysOk
        (processSendQueue 0 3 adapterAlwaysOk
          (dispatchState [samplePacket, samplePacket])) =
      processSendQueue 0 3 adapterAlwaysOk
        (dispatchState [samplePacket, samplePacket]) ∧
    (processSendQueue 0 3 adapterAlwaysOk
        (dispatchState [samplePacket, samplePacket])).mNextSendTime =
      3 + SEND_INTERVAL_US := by
  have h := rate_limit_twenty_ms (dispatchState [samplePacket, samplePacket])
    adapterAlwaysOk samplePacket [samplePacket] 0 3 rfl (by decide) rfl
  exact ⟨h.2.2.2 7 9 (by decide), h.2.1⟩

/-- Claim C9: the serial (UART / USB-JTAG) `sendImpl` returns `ESP_OK` exactly
when the driver wrote all `packet.size` bytes and `ESP_FAIL` otherwise;
`ESP_FAIL` is not classified temporary, so a failed or partial write makes
the dispatch drop the packet: it leaves the queue and is never
re-enqueued by any later tick. -/
theorem serial_failure_fatal (w : Nat) (p : Packet) (s : TransportState)
    (now now2 : Nat) (hq : s.mSendQueue = [p]) (ht : s.mNextSendTime ≤ now) :
    (serialSendImpl w p = ESP_OK ↔ w = p.size) ∧
    (w ≠ p.size → serialSendImpl w p = ESP_FAIL) ∧
    isTemporary ESP_FAIL = false ∧
    (w ≠ p.size →
      (processSendQueue now now2 (fun _ q => serialSendImpl w q) s).mSendQueue
        = [] ∧
      ∀ ts, runTicks ts (fun _ q => serialSendImpl w q)
          (processSendQueue now now2 (fun _ q => serialSendImpl w q) s) =
        processSendQueue now now2 (fun _ q => serialSendImpl w q) s) := by
  refine ⟨?_, fun h => by simp [serialSendImpl, h], by decide, fun h => ?_⟩
  · unfold serialSendImpl
    split_ifs with h
    · simp [ESP_FAIL, ESP_OK, h]
    · simp [ESP_OK]
      omega
  · have hstep := processSendQueue_cons now now2 (fun _ q => serialSendImpl w q)
      s p [] hq (by omega)
    have hfail : serialSendImpl w p = ESP_FAIL := by simp [serialSendImpl, h]
    simp only [hfail] at hstep
    rw [if_neg (by decide)] at hstep
    have hq2 : (processSendQueue now now2 (fun _ q => serialSendImpl w q)
        s).mSendQueue = [] := by
      rw [hstep]
      simp [handleSendError, show isTemporary ESP_FAIL = false from by decide,
        apply_ite]
    exact ⟨hq2, fun ts => runTicks_empty_queue ts _ _ hq2⟩

/-- Witness for C9: a partial write of 1 of the sample packet's 3 bytes
fails fatally and empties the queue. -/
theorem serial_failure_fatal_witness :
    serialSendImpl 1 samplePacket = ESP_FAIL ∧
    (processSendQueue 0 0 (fun _ q => serialSendImpl 1 q)
        (dispatchState [samplePacket])).mSendQueue = [] := by
  have h := serial_failure_fatal 1 samplePacket (dispatchState [samplePacket])
    0 0 rfl (by decide)
  exact ⟨h.2.1 (by decide), (h.2.2.2 (by decide)).1⟩

/-- Claim C10: every packet the UART or USB-JTAG receive path hands to the
bound receive handler is valid (`0 < size ≤ 517`) and carries `id = 0`:
delivery happens only when the poll read at least one byte, the read is
bounded by the 517-byte buffer, and inbound packets never get an id. -/
theorem received_packets_valid (cb : Bool) (avail readLen : Nat)
    (data : List Nat) (hlen : readLen ≤ MAX_MTU) :
    (∀ p, uartProcessReceivedData cb avail readLen data = some p →
      p.isValid = true ∧ p.id = 0) ∧
    (∀ p, usbJtagProcessReceivedData cb readLen data = some p →
      p.isValid = true ∧ p.id = 0) := by
  constructor <;> intro p hp
  · unfold uartProcessReceivedData at hp
    split_ifs at hp with h1
    simp only [gt_iff_lt, Option.ite_none_right_eq_some,
      Option.some.injEq] at hp
    obtain ⟨h2, rfl⟩ := hp
    refine ⟨?_, rfl⟩
    simp only [Packet.isValid, MAX_MTU, decide_eq_true_eq, Bool.and_eq_true,
      gt_iff_lt]
    exact ⟨by simpa using h2, by simpa [MAX_MTU] using hlen⟩
  · unfold usbJtagProcessReceivedData at hp
    split_ifs at hp with h1
    simp only [gt_iff_lt, Option.ite_none_right_eq_some,
      Option.some.injEq] at hp
    obtain ⟨h2, rfl⟩ := hp
    refine ⟨?_, rfl⟩
    simp only [Packet.isValid, MAX_MTU, decide_eq_true_eq, Bool.and_eq_true,
      gt_iff_lt]
    exact ⟨by simpa using h2, by simpa [MAX_MTU] using hlen⟩

/-- Witness for C10: a 3-byte UART read of `[1, 2, 3]` delivers
`rxPacket`, which is valid and unaddressed. -/
theorem received_packets_valid_witness :
    rxPacket.isValid = true ∧ rxPacket.id = 0 :=
  (received_packets_valid true 1 3 [1, 2, 3] (by decide)).1 rxPacket rfl

end Nets
